import Mathlib

/-!
Shallow embedding of the convenience operations of `universal_mcp_google_drive`
(`src/universal_mcp_google_drive/app.py`): `list_files`, `delete_file`,
`create_file_from_text`, `find_folder_id_by_name`, `create_folder`,
`upload_a_file`, and the spec-described `move_files`.

Each Python method is modelled as a function from a transport oracle
(`Transport`, standing for the authenticated HTTP helper `self._get` /
`self._post` / `self._delete` and the direct `httpx.patch` call) to the list
of HTTP requests the method attempts, in order, paired with its outcome:
`Except PyExc JValue` (a raised Python exception, or the returned value).
JSON values are modelled by `JValue`; Python `dict.get`, subscripting,
truthiness and f-string interpolation are modelled by explicit helpers that
mirror CPython semantics on the value shapes that can occur here.
-/

namespace GDrive

/-- Model of a Python exception, tagged by class, carrying the text that
`str(e)` would produce (for message-carrying constructors). -/
inductive PyExc where
  | valueError (msg : String)
  | httpStatusError (msg : String)
  | transportError (msg : String)
  | jsonDecodeError (msg : String)
  | fsError (msg : String)
  | attributeError (msg : String)
  | keyError (msg : String)
  | typeError (msg : String)
  | indexError (msg : String)
deriving DecidableEq, Repr

/-- Model of Python `str(e)` for an exception: the carried message. -/
def PyExc.toMessage : PyExc → String
  | .valueError m => m
  | .httpStatusError m => m
  | .transportError m => m
  | .jsonDecodeError m => m
  | .fsError m => m
  | .attributeError m => m
  | .keyError m => m
  | .typeError m => m
  | .indexError m => m

/-- Model of a JSON-like Python value (the values flowing through request
bodies, query parameters and decoded responses). -/
inductive JValue where
  | null
  | str (s : String)
  | int (n : Int)
  | bool (b : Bool)
  | arr (elems : List JValue)
  | obj (fields : List (String × JValue))

/-- HTTP verb of a request. -/
inductive Verb where
  | get | post | patch | delete
deriving DecidableEq, Repr

/-- One outbound HTTP request as assembled by the Python code: verb, full URL,
query parameters (insertion-ordered, as in the Python dicts), optional JSON
body (the `data=` argument), optional raw byte content (the `content=`
argument of `httpx.patch`), and headers. -/
structure Request where
  verb : Verb
  url : String
  params : List (String × JValue)
  body : Option JValue
  content : Option (List Nat)
  headers : List (String × JValue)

/-- A transport-level response: whether the status is 2xx (consulted by
`raise_for_status`), and the result of `.json()` (which may itself raise a
decode error). -/
structure HResp where
  statusOk : Bool
  body : Except PyExc JValue

/-- The transport oracle: how the HTTP layer behaves on each request.
`Except.error` covers connection failures and any exception raised inside the
HTTP helper itself. -/
def Transport : Type := Request → Except PyExc HResp

/-- Base URL set in `GoogleDriveApp.__init__`. -/
def baseUrl : String := "https://www.googleapis.com/drive/v3"

/-- Insertion-ordered association lookup: Python `dict[key]` / `dict.get`
resolution over our field lists. -/
def lookupField : List (String × JValue) → String → Option JValue
  | [], _ => none
  | (k', v) :: rest, k => if k' = k then some v else lookupField rest k

/-- Python truthiness of a JSON-like value (`if files:` etc.). -/
def jTruthy : JValue → Bool
  | .null => false
  | .str s => !(s = "")
  | .int n => !(n = 0)
  | .bool b => b
  | .arr l => !l.isEmpty
  | .obj l => !l.isEmpty

/-- Python truthiness of an optional-string parameter defaulting to `None`
(`if query:`): `None` and the empty string are falsy. -/
def optTruthy : Option String → Bool
  | none => false
  | some s => !(s = "")

/-- Python `value.get(key)` / `value.get(key, default)` attribute resolution:
raises `AttributeError` when the receiver is not a dict. `dflt = none` models
the one-argument form (default `None` is then delivered as `JValue.null` by
the caller-side `getD`). -/
def jDictGet (v : JValue) (k : String) (dflt : Option JValue) :
    Except PyExc (Option JValue) :=
  match v with
  | .obj fs =>
    match lookupField fs k with
    | some x => .ok (some x)
    | none => .ok dflt
  | _ => .error (.attributeError "object has no attribute get")

/-- Python subscript `v[0]` on the shapes reachable here. -/
def jIndex0 : JValue → Except PyExc JValue
  | .arr (x :: _) => .ok x
  | .arr [] => .error (.indexError "list index out of range")
  | .str s =>
    match s.data with
    | c :: _ => .ok (.str (String.mk [c]))
    | [] => .error (.indexError "string index out of range")
  | _ => .error (.typeError "object is not subscriptable")

/-- Python subscript `v[key]` with a string key. -/
def jGetItem (v : JValue) (k : String) : Except PyExc JValue :=
  match v with
  | .obj fs =>
    match lookupField fs k with
    | some x => .ok x
    | none => .error (.keyError k)
  | _ => .error (.typeError "object is not subscriptable")

mutual

/-- Python `repr` of a JSON-like value (used by `str` on non-string values),
approximated without string-escape handling (no value exercised here needs
it). -/
def jRepr : JValue → String
  | .null => "None"
  | .str s => "'" ++ s ++ "'"
  | .int n => toString n
  | .bool b => if b then "True" else "False"
  | .arr l => "[" ++ String.intercalate ", " (jReprList l) ++ "]"
  | .obj l => "\x7b" ++ String.intercalate ", " (jReprFields l) ++ "\x7d"

/-- Helper for `jRepr`: renderings of the elements of a list value. -/
def jReprList : List JValue → List String
  | [] => []
  | x :: xs => jRepr x :: jReprList xs

/-- Helper for `jRepr`: renderings of the entries of a dict value. -/
def jReprFields : List (String × JValue) → List String
  | [] => []
  | (k, v) :: xs => ("'" ++ k ++ "': " ++ jRepr v) :: jReprFields xs

end

/-- Python f-string interpolation `f"...{x}..."` of the result of a
`dict.get` call: `None` renders as `"None"`, a string renders as itself,
anything else via `str`. -/
def pyStrOfGet : Option JValue → String
  | none => "None"
  | some .null => "None"
  | some (.str s) => s
  | some v => jRepr v

/-- Python `dict[key] = value` on an insertion-ordered header dict: replaces
in place when the key exists, otherwise appends. -/
def dictSet (d : List (String × JValue)) (k : String) (v : JValue) :
    List (String × JValue) :=
  if d.any (fun kv => kv.fst = k) then
    d.map (fun kv => if kv.fst = k then (k, v) else kv)
  else d ++ [(k, v)]

/-- Model of `response.raise_for_status()`. -/
def raiseForStatus (r : HResp) : Except PyExc Unit :=
  if r.statusOk then .ok () else .error (.httpStatusError "HTTPStatusError")

/-! ### `list_files` (app.py lines 40-71) -/

/-- Query-parameter dict assembled by `list_files`: `pageSize` always,
`q` and `orderBy` only when the corresponding argument is truthy. -/
def listFilesParams (page_size : Int) (query order_by : Option String) :
    List (String × JValue) :=
  [("pageSize", JValue.int page_size)] ++
    (match query with
     | some q => if q = "" then [] else [("q", JValue.str q)]
     | none => []) ++
    (match order_by with
     | some o => if o = "" then [] else [("orderBy", JValue.str o)]
     | none => [])

/-- The single GET request issued by `list_files`. -/
def listFilesReq (page_size : Int) (query order_by : Option String) :
    Request :=
  { verb := .get
    url := baseUrl ++ "/files"
    params := listFilesParams page_size query order_by
    body := none
    content := none
    headers := [] }

/-- Outcome of `list_files`: `_get`, then `raise_for_status`, then
`.json()`. -/
def listFilesResult (t : Transport) (page_size : Int)
    (query order_by : Option String) : Except PyExc JValue :=
  match t (listFilesReq page_size query order_by) with
  | .error e => .error e
  | .ok resp =>
    match raiseForStatus resp with
    | .error e => .error e
    | .ok _ => resp.body

/-- Embedding of `GoogleDriveApp.list_files`: the single GET, paired with
its outcome. -/
def listFiles (t : Transport) (page_size : Int)
    (query order_by : Option String) : List Request × Except PyExc JValue :=
  ([listFilesReq page_size query order_by],
   listFilesResult t page_size query order_by)

/-! ### `delete_file` (app.py lines 94-115) -/

/-- The DELETE request issued by `delete_file`. -/
def deleteFileReq (file_id : String) : Request :=
  { verb := .delete
    url := baseUrl ++ "/files/" ++ file_id
    params := []
    body := none
    content := none
    headers := [] }

/-- Embedding of `GoogleDriveApp.delete_file`: `try`/`except Exception`
around the DELETE, converting any exception into `{"error": str(e)}`. -/
def deleteFile (t : Transport) (file_id : String) :
    List Request × Except PyExc JValue :=
  ([deleteFileReq file_id],
   match t (deleteFileReq file_id) with
   | .error e => .ok (.obj [("error", .str e.toMessage)])
   | .ok _ => .ok (.obj [("message", .str "File deleted successfully")]))

/-! ### `find_folder_id_by_name` (app.py lines 160-186) -/

/-- The search query string, with `folder_name` interpolated directly. -/
def findFolderQuery (folder_name : String) : String :=
  "mimeType='application/vnd.google-apps.folder' and name='" ++ folder_name ++
    "' and trashed=false"

/-- The single GET request issued by `find_folder_id_by_name`. -/
def findFolderReq (folder_name : String) : Request :=
  { verb := .get
    url := baseUrl ++ "/files"
    params := [("q", JValue.str (findFolderQuery folder_name)),
               ("fields", JValue.str "files(id,name)")]
    body := none
    content := none
    headers := [] }

/-- The `try` body of `GoogleDriveApp.find_folder_id_by_name`: GET, decode,
then `files[0]["id"] if files else None` where
`files = response.json().get("files", [])`. Any exception raised here is
caught by the method's `except Exception`, logged, and turned into `None`. -/
def findFolderAttempt (t : Transport) (folder_name : String) :
    Except PyExc JValue :=
  match t (findFolderReq folder_name) with
  | .error e => .error e
  | .ok resp =>
    match resp.body with
    | .error e => .error e
    | .ok jv =>
      match jDictGet jv "files" (some (.arr [])) with
      | .error e => .error e
      | .ok filesOpt =>
        let files := filesOpt.getD .null
        if jTruthy files then
          match jIndex0 files with
          | .error e => .error e
          | .ok first =>
            match jGetItem first "id" with
            | .error e => .error e
            | .ok idv => .ok idv
        else .ok .null

/-- Embedding proper of `find_folder_id_by_name`: the single GET, paired
with the `try` body's value, where any exception becomes `None`. -/
def findFolderIdByName (t : Transport) (folder_name : String) :
    List Request × JValue :=
  ([findFolderReq folder_name],
   match findFolderAttempt t folder_name with
   | .ok v => v
   | .error _ => .null)

/-! ### `create_folder` (app.py lines 188-225) -/

/-- Character class `[a-zA-Z0-9_-]` of the parent-ID regex. -/
def isIdChar (c : Char) : Bool :=
  ('a' ≤ c && c ≤ 'z') || ('A' ≤ c && c ≤ 'Z') || ('0' ≤ c && c ≤ '9') ||
    c = '_' || c = '-'

/-- A run of 28 to 33 characters from the ID character class. -/
def isIdRun (l : List Char) : Bool :=
  l.all isIdChar && 28 ≤ l.length && l.length ≤ 33

/-- Model of `re.match(r"^[a-zA-Z0-9_-]{28,33}$", s)` being truthy, with
CPython semantics: `re.match` anchors at the start only, and `$` matches at
the end of the string or just before a single trailing newline, so a 28-33
character ID run followed by one final `\n` also matches. -/
def pyIdMatch (s : String) : Bool :=
  isIdRun s.data ||
    (match s.data.getLast? with
     | some c => c = '\n' && isIdRun s.data.dropLast
     | none => false)

/-- The metadata dict built by `create_folder`, given the resolved
`parents` entry (`none` when the `if parent_id:` block sets no parent). -/
def folderMetadata (folder_name : String) (parents : Option JValue) :
    JValue :=
  .obj ([("name", JValue.str folder_name),
         ("mimeType", JValue.str "application/vnd.google-apps.folder")] ++
    (match parents with
     | some p => [("parents", JValue.arr [p])]
     | none => []))

/-- The POST request issued by `create_folder`. -/
def createFolderReq (metadata : JValue) : Request :=
  { verb := .post
    url := baseUrl ++ "/files"
    params := [("supportsAllDrives", JValue.str "true")]
    body := some metadata
    content := none
    headers := [] }

/-- Shared tail of `create_folder`: issue the POST and return
`response.json()`. `pre` is the trace of requests already attempted. -/
def createFolderFinish (t : Transport) (metadata : JValue)
    (pre : List Request) : List Request × Except PyExc JValue :=
  (pre ++ [createFolderReq metadata],
   match t (createFolderReq metadata) with
   | .error e => .error e
   | .ok resp => resp.body)

/-- Embedding of `GoogleDriveApp.create_folder`: when `parent_id` is truthy,
a non-ID-shaped value is resolved through `find_folder_id_by_name`, raising
`ValueError` when the lookup result is falsy; an ID-shaped value is used
directly. -/
def createFolder (t : Transport) (folder_name : String)
    (parent_id : Option String) : List Request × Except PyExc JValue :=
  match parent_id with
  | some p =>
    if p = "" then createFolderFinish t (folderMetadata folder_name none) []
    else
      if pyIdMatch p then
        createFolderFinish t
          (folderMetadata folder_name (some (.str p))) []
      else
        let lookup := findFolderIdByName t p
        if jTruthy lookup.2 then
          createFolderFinish t
            (folderMetadata folder_name (some lookup.2)) lookup.1
        else
          (lookup.1,
           .error (.valueError
             ("Could not find parent folder with name: " ++ p)))
  | none => createFolderFinish t (folderMetadata folder_name none) []

/-! ### `create_file_from_text` (app.py lines 117-158) -/

/-- UTF-8 encoding of one character (code point to bytes). -/
def utf8EncodeChar (c : Char) : List Nat :=
  let n := c.toNat
  if n < 128 then [n]
  else if n < 2048 then [192 + n / 64, 128 + n % 64]
  else if n < 65536 then
    [224 + n / 4096, 128 + (n / 64) % 64, 128 + n % 64]
  else
    [240 + n / 262144, 128 + (n / 4096) % 64, 128 + (n / 64) % 64,
     128 + n % 64]

/-- Model of Python `s.encode("utf-8")` as a byte list. -/
def encodeUtf8 (s : String) : List Nat :=
  (s.data.map utf8EncodeChar).flatten

/-- The metadata dict built by `create_file_from_text` and `upload_a_file`:
`name`, `mimeType` (a JSON value: `null` when `upload_a_file` got no MIME
type), and `parents` only when `parent_id` is truthy. -/
def fileMetadata (file_name : String) (mime : JValue)
    (parent_id : Option String) : JValue :=
  .obj ([("name", JValue.str file_name), ("mimeType", mime)] ++
    (match parent_id with
     | some p => if p = "" then [] else [("parents", JValue.arr [.str p])]
     | none => []))

/-- The metadata-create POST request shared by `create_file_from_text` and
`upload_a_file` (no query parameters). -/
def fileCreateReq (metadata : JValue) : Request :=
  { verb := .post
    url := baseUrl ++ "/files"
    params := []
    body := some metadata
    content := none
    headers := [] }

/-- The upload URL, with the result of `file_data.get("id")` interpolated by
f-string. -/
def uploadUrl (fileIdGet : Option JValue) : String :=
  "https://www.googleapis.com/upload/drive/v3/files/" ++
    pyStrOfGet fileIdGet ++ "?uploadType=media"

/-- The `httpx.patch` upload request: the auth headers with `Content-Type`
set, and the raw byte content. -/
def uploadPatchReq (fileIdGet : Option JValue)
    (authHeaders : List (String × JValue)) (contentType : JValue)
    (bytes : List Nat) : Request :=
  { verb := .patch
    url := uploadUrl fileIdGet
    params := []
    body := none
    content := some bytes
    headers := dictSet authHeaders "Content-Type" contentType }

/-- Shared tail of both two-call uploads: PATCH the bytes, call
`raise_for_status`, return `response.json()`. `req1` is the already-issued
metadata POST. -/
def uploadFinish (t : Transport) (req1 req2 : Request) :
    List Request × Except PyExc JValue :=
  match t req2 with
  | .error e => ([req1, req2], .error e)
  | .ok uresp =>
    match raiseForStatus uresp with
    | .error e => ([req1, req2], .error e)
    | .ok _ =>
      match uresp.body with
      | .error e => ([req1, req2], .error e)
      | .ok jv => ([req1, req2], .ok jv)

/-- Embedding of `GoogleDriveApp.create_file_from_text`: POST the metadata,
read `id` out of the decoded response with `.get`, then PATCH the UTF-8
bytes of `text_content` to the upload URL with
`Content-Type: <mime_type>; charset=utf-8`, returning the second response's
JSON. `authHeaders` stands for `self._get_headers()`. -/
def createFileFromText (t : Transport)
    (authHeaders : List (String × JValue)) (file_name text_content : String)
    (parent_id : Option String) (mime_type : String) :
    List Request × Except PyExc JValue :=
  let req1 := fileCreateReq (fileMetadata file_name (.str mime_type) parent_id)
  match t req1 with
  | .error e => ([req1], .error e)
  | .ok resp =>
    match resp.body with
    | .error e => ([req1], .error e)
    | .ok file_data =>
      match jDictGet file_data "id" none with
      | .error e => ([req1], .error e)
      | .ok fileIdGet =>
        uploadFinish t req1
          (uploadPatchReq fileIdGet authHeaders
            (.str (mime_type ++ "; charset=utf-8")) (encodeUtf8 text_content))

/-! ### `upload_a_file` (app.py lines 227-273) -/

/-- The JSON value that `upload_a_file`'s optional `mime_type` argument
contributes to the metadata dict and the `Content-Type` header: `null` for
Python `None`. -/
def mimeJValue : Option String → JValue
  | some m => .str m
  | none => .null

/-- Embedding of `GoogleDriveApp.upload_a_file`. `localFile` models
`open(file_path, "rb").read()`: the bytes on success, or the filesystem
exception the `open`/`read` raises. The metadata POST is issued first; the
local file is opened only afterwards; the upload `Content-Type` is the raw
`mime_type` value (possibly `None`, no charset suffix). -/
def uploadAFile (t : Transport) (authHeaders : List (String × JValue))
    (localFile : Except PyExc (List Nat)) (file_name : String)
    (parent_id : Option String) (mime_type : Option String) :
    List Request × Except PyExc JValue :=
  let mimeJ := mimeJValue mime_type
  let req1 := fileCreateReq (fileMetadata file_name mimeJ parent_id)
  match t req1 with
  | .error e => ([req1], .error e)
  | .ok resp =>
    match resp.body with
    | .error e => ([req1], .error e)
    | .ok file_data =>
      match jDictGet file_data "id" none with
      | .error e => ([req1], .error e)
      | .ok fileIdGet =>
        match localFile with
        | .error e => ([req1], .error e)
        | .ok bytes =>
          uploadFinish t req1
            (uploadPatchReq fileIdGet authHeaders mimeJ bytes)

/-! ### `move_files` -/

/-- The single PATCH request described for `move_files`. -/
def moveFilesReq (file_id add_parents remove_parents : String) : Request :=
  { verb := .patch
    url := baseUrl ++ "/files/" ++ file_id
    params := [("addParents", JValue.str add_parents),
               ("removeParents", JValue.str remove_parents)]
    body := none
    content := none
    headers := [] }

/-- Modelled from the spec: `move_files` is named by the specification
(section 4.6) but absent from the repository sources; per the spec it issues
a single PATCH against the file's metadata endpoint with an empty body and
query parameters `addParents` and `removeParents`, returning the decoded
updated metadata. -/
def moveFiles (t : Transport) (file_id add_parents remove_parents : String) :
    List Request × Except PyExc JValue :=
  let req := moveFilesReq file_id add_parents remove_parents
  match t req with
  | .error e => ([req], .error e)
  | .ok resp =>
    match resp.body with
    | .error e => ([req], .error e)
    | .ok jv => ([req], .ok jv)

/-! ### Concrete transport behaviours used to instantiate the theorems -/

/-- A transport that answers every request with status 200 and body `{}`. -/
def transportTrivial : Transport :=
  fun _ => .ok ⟨true, .ok (.obj [])⟩

/-- A transport whose every response decodes to `{"files": []}` (folder
search finds nothing). -/
def transportAbsent : Transport :=
  fun _ => .ok ⟨true, .ok (.obj [("files", JValue.arr [])])⟩

/-- A transport whose every response decodes to
`{"files": [{"id": "FID", "name": "Projects"}]}`. -/
def transportFound : Transport :=
  fun _ =>
    .ok ⟨true, .ok (.obj [("files",
      JValue.arr [.obj [("id", .str "FID"), ("name", .str "Projects")]])])⟩

/-- A transport for the two-call upload scenario: the metadata POST returns
`{"id": "file-abc"}`, every other request returns the post-upload
representation `{"id": "file-abc", "name": "notes.txt"}`. -/
def transportScenarioA : Transport :=
  fun r =>
    match r.verb with
    | .post => .ok ⟨true, .ok (.obj [("id", .str "file-abc")])⟩
    | _ =>
      .ok ⟨true,
        .ok (.obj [("id", .str "file-abc"), ("name", .str "notes.txt")])⟩

/-! ### Shared helper lemmas -/

/-- Both two-call uploads attempt exactly the metadata POST and then the
content PATCH, whatever the transport does on the PATCH. -/
theorem uploadFinish_trace (t : Transport) (req1 req2 : Request) :
    (uploadFinish t req1 req2).1 = [req1, req2] := by
  unfold uploadFinish
  cases t req2 with
  | error e => rfl
  | ok uresp =>
    cases h : raiseForStatus uresp with
    | error e => simp [h]
    | ok u =>
      cases hb : uresp.body with
      | error e => simp [h, hb]
      | ok jv => simp [h, hb]

/-- The `create_folder` POST tail appends exactly one request to the trace. -/
theorem createFolderFinish_trace (t : Transport) (metadata : JValue)
    (pre : List Request) :
    (createFolderFinish t metadata pre).1 = pre ++ [createFolderReq metadata] :=
  rfl

/-- Replacing the value of a present key, then looking it up, yields the new
value. -/
theorem lookupField_map_set (d : List (String × JValue)) (k : String)
    (v : JValue) (h : (d.any fun kv => kv.fst = k) = true) :
    lookupField (d.map fun kv => if kv.fst = k then (k, v) else kv) k =
      some v := by
  induction d with
  | nil => simp at h
  | cons kv rest ih =>
    by_cases hk : kv.1 = k
    · simp only [List.map_cons, if_pos hk]
      simp [lookupField]
    · simp only [List.map_cons, if_neg hk]
      have h' : (rest.any fun kv => kv.fst = k) = true := by
        simpa [List.any_cons, hk] using h
      simp [lookupField, hk, ih h']

/-- A key on which `any` fails is not found. -/
theorem lookupField_none_of_not_any (d : List (String × JValue)) (k : String)
    (h : (d.any fun kv => kv.fst = k) = false) : lookupField d k = none := by
  induction d with
  | nil => rfl
  | cons kv rest ih =>
    have hk : ¬ kv.1 = k := by
      intro hc
      simp [List.any_cons, hc] at h
    have h' : (rest.any fun kv => kv.fst = k) = false := by
      simpa [List.any_cons, hk] using h
    simp [lookupField, hk, ih h']

/-- Lookup passes over a prefix that does not contain the key. -/
theorem lookupField_append_of_none (d tail : List (String × JValue))
    (k : String) (h : lookupField d k = none) :
    lookupField (d ++ tail) k = lookupField tail k := by
  induction d with
  | nil => rfl
  | cons kv rest ih =>
    by_cases hk : kv.1 = k
    · simp [lookupField, hk] at h
    · have h' : lookupField rest k = none := by
        simpa [lookupField, hk] using h
      simpa [lookupField, hk] using ih h'

/-- After `d[k] = v`, looking up `k` yields `v` (Python dict assignment). -/
theorem lookupField_dictSet (d : List (String × JValue)) (k : String)
    (v : JValue) : lookupField (dictSet d k v) k = some v := by
  unfold dictSet
  cases h : (d.any fun kv => kv.fst = k) with
  | true => simpa [h] using lookupField_map_set d k v h
  | false =>
    have hnone := lookupField_none_of_not_any d k h
    have happ := lookupField_append_of_none d [(k, v)] k hnone
    simp [h, happ, lookupField]

/-! ### Claim theorems -/

/-- C2: for every `file_id` and every transport behaviour, `delete_file`
never raises and returns either exactly
`{"message": "File deleted successfully"}` on success, or a mapping whose
single key is `error`, mapped to the stringified exception, on any failure. -/
theorem deleteFile_uniform_result (t : Transport) (file_id : String) :
    (deleteFile t file_id).2 =
        .ok (.obj [("message", .str "File deleted successfully")]) ∨
      ∃ e, t (deleteFileReq file_id) = .error e ∧
        (deleteFile t file_id).2 = .ok (.obj [("error", .str e.toMessage)]) := by
  cases h : t (deleteFileReq file_id) with
  | error e => exact Or.inr ⟨e, rfl, by simp [deleteFile, h]⟩
  | ok r => exact Or.inl (by simp [deleteFile, h])

/-- C8: for every `folder_name`, `find_folder_id_by_name` issues exactly one
GET against the files-list endpoint whose `q` parameter is literally
`mimeType='application/vnd.google-apps.folder' and name='<folder_name>' and
trashed=false` with the name interpolated directly (no quote escaping), and
whose `fields` parameter is `files(id,name)`. -/
theorem findFolder_request_shape (t : Transport) (folder_name : String) :
    (findFolderIdByName t folder_name).1 =
      [{ verb := .get
         url := baseUrl ++ "/files"
         params := [("q", .str
             ("mimeType='application/vnd.google-apps.folder' and name='" ++
               folder_name ++ "' and trashed=false")),
           ("fields", .str "files(id,name)")]
         body := none
         content := none
         headers := [] }] := rfl

/-- C6: `find_folder_id_by_name` never raises (its result type carries no
exception), and: a transport exception yields `None`; a JSON-decode
exception yields `None`; a `.get`-level exception yields `None`; a response
without a `files` key yields `None`; an empty `files` array yields `None`;
and a non-empty `files` array yields the `id` of its first element. -/
theorem findFolder_absence_and_first_id (t : Transport) (folder_name : String) :
    (∀ e, t (findFolderReq folder_name) = .error e →
        (findFolderIdByName t folder_name).2 = .null) ∧
    (∀ resp e, t (findFolderReq folder_name) = .ok resp →
        resp.body = .error e → (findFolderIdByName t folder_name).2 = .null) ∧
    (∀ resp jv e, t (findFolderReq folder_name) = .ok resp →
        resp.body = .ok jv → jDictGet jv "files" (some (.arr [])) = .error e →
        (findFolderIdByName t folder_name).2 = .null) ∧
    (∀ resp fields, t (findFolderReq folder_name) = .ok resp →
        resp.body = .ok (.obj fields) → lookupField fields "files" = none →
        (findFolderIdByName t folder_name).2 = .null) ∧
    (∀ resp fields, t (findFolderReq folder_name) = .ok resp →
        resp.body = .ok (.obj fields) →
        lookupField fields "files" = some (.arr []) →
        (findFolderIdByName t folder_name).2 = .null) ∧
    (∀ resp fields x rest idv, t (findFolderReq folder_name) = .ok resp →
        resp.body = .ok (.obj fields) →
        lookupField fields "files" = some (.arr (x :: rest)) →
        jGetItem x "id" = .ok idv →
        (findFolderIdByName t folder_name).2 = idv) := by
  refine ⟨?_, ?_, ?_, ?_, ?_, ?_⟩
  · intro e h
    simp [findFolderIdByName, findFolderAttempt, h]
  · intro resp e h hb
    simp [findFolderIdByName, findFolderAttempt, h, hb]
  · intro resp jv e h hb hg
    simp [findFolderIdByName, findFolderAttempt, h, hb, hg]
  · intro resp fields h hb hl
    simp [findFolderIdByName, findFolderAttempt, jDictGet, h, hb, hl, jTruthy]
  · intro resp fields h hb hl
    simp [findFolderIdByName, findFolderAttempt, jDictGet, h, hb, hl, jTruthy]
  · intro resp fields x rest idv h hb hl hid
    simp [findFolderIdByName, findFolderAttempt, jDictGet, h, hb, hl, jTruthy,
      jIndex0, hid]

/-- C6 witness: with a transport answering
`{"files": [{"id": "FID", "name": "Projects"}]}`, the lookup returns
`"FID"`. -/
theorem findFolder_absence_and_first_id_witness :
    (findFolderIdByName transportFound "Projects").2 = .str "FID" :=
  (findFolder_absence_and_first_id transportFound "Projects").2.2.2.2.2
    ⟨true, .ok (.obj [("files",
      JValue.arr [.obj [("id", .str "FID"), ("name", .str "Projects")]])])⟩
    [("files",
      JValue.arr [.obj [("id", .str "FID"), ("name", .str "Projects")]])]
    (.obj [("id", .str "FID"), ("name", .str "Projects")]) [] (.str "FID")
    rfl rfl (by simp [lookupField]) rfl

/-- C7 counterexample: the claim says `q` is included whenever the caller
supplied a non-absent value, but calling `list_files(10, query="", order_by
=None)` supplies the non-absent value `""` and the single GET's parameters
are exactly `[("pageSize", 10)]`, with no `q`. -/
theorem listFiles_empty_query_counterexample :
    (some "" : Option String) ≠ none ∧
    (listFiles transportTrivial 10 (some "") none).1 =
      [{ verb := .get
         url := baseUrl ++ "/files"
         params := [("pageSize", .int 10)]
         body := none
         content := none
         headers := [] }] :=
  ⟨by simp, rfl⟩

/-- C7 amended: every `list_files` call issues exactly one GET whose
parameters always carry `pageSize`, and carry `q` (resp. `orderBy`) if and
only if the caller-supplied `query` (resp. `order_by`) is truthy, i.e.
neither `None` nor the empty string. -/
theorem listFiles_param_inclusion (t : Transport) (page_size : Int)
    (query order_by : Option String) :
    (listFiles t page_size query order_by).1 =
      [listFilesReq page_size query order_by] ∧
    (listFilesReq page_size query order_by).params =
      listFilesParams page_size query order_by ∧
    lookupField (listFilesParams page_size query order_by) "pageSize" =
      some (.int page_size) ∧
    ((listFilesParams page_size query order_by).any
        fun kv => kv.fst = "q") = optTruthy query ∧
    ((listFilesParams page_size query order_by).any
        fun kv => kv.fst = "orderBy") = optTruthy order_by := by
  refine ⟨rfl, rfl, ?_, ?_, ?_⟩
  · rcases query with _ | q <;> rcases order_by with _ | o
    · simp [listFilesParams, lookupField]
    · by_cases ho : o = "" <;> simp [listFilesParams, lookupField, ho]
    · by_cases hq : q = "" <;> simp [listFilesParams, lookupField, hq]
    · by_cases hq : q = "" <;> by_cases ho : o = "" <;>
        simp [listFilesParams, lookupField, hq, ho]
  · rcases query with _ | q <;> rcases order_by with _ | o
    · simp [listFilesParams, optTruthy]
    · by_cases ho : o = "" <;> simp [listFilesParams, optTruthy, ho]
    · by_cases hq : q = "" <;> simp [listFilesParams, optTruthy, hq]
    · by_cases hq : q = "" <;> by_cases ho : o = "" <;>
        simp [listFilesParams, optTruthy, hq, ho]
  · rcases query with _ | q <;> rcases order_by with _ | o
    · simp [listFilesParams, optTruthy]
    · by_cases ho : o = "" <;> simp [listFilesParams, optTruthy, ho]
    · by_cases hq : q = "" <;> simp [listFilesParams, optTruthy, hq]
    · by_cases hq : q = "" <;> by_cases ho : o = "" <;>
        simp [listFilesParams, optTruthy, hq, ho]

/-- C9 (spec-modelled, `move_files` is absent from the sources): calling
`move_files("f1", "p2", "p1")` issues exactly one PATCH to `/files/f1` with
query parameters `addParents=p2` and `removeParents=p1`, an empty body and
no raw content, and returns the JSON decoded from that single call. -/
theorem moveFiles_single_patch (t : Transport) (resp : HResp) (j : JValue)
    (h1 : t (moveFilesReq "f1" "p2" "p1") = .ok resp)
    (h2 : resp.body = .ok j) :
    moveFiles t "f1" "p2" "p1" = ([moveFilesReq "f1" "p2" "p1"], .ok j) ∧
    moveFilesReq "f1" "p2" "p1" =
      { verb := .patch
        url := "https://www.googleapis.com/drive/v3/files/f1"
        params := [("addParents", .str "p2"), ("removeParents", .str "p1")]
        body := none
        content := none
        headers := [] } := by
  refine ⟨?_, rfl⟩
  simp [moveFiles, h1, h2]

/-- C9 witness: a concrete transport whose PATCH response decodes to the
updated metadata. -/
theorem moveFiles_single_patch_witness :
    moveFiles transportFound "f1" "p2" "p1" =
      ([moveFilesReq "f1" "p2" "p1"],
       .ok (.obj [("files",
         JValue.arr [.obj [("id", .str "FID"), ("name", .str "Projects")]])])) :=
  (moveFiles_single_patch transportFound
    ⟨true, .ok (.obj [("files",
      JValue.arr [.obj [("id", .str "FID"), ("name", .str "Projects")]])])⟩
    (.obj [("files",
      JValue.arr [.obj [("id", .str "FID"), ("name", .str "Projects")]])])
    rfl rfl).1

/-- The trace of `find_folder_id_by_name` is always its single GET. -/
theorem findFolderIdByName_trace (t : Transport) (folder_name : String) :
    (findFolderIdByName t folder_name).1 = [findFolderReq folder_name] := rfl

/-- C3 counterexample: `parent_id = ""` is a non-None string that does not
match the ID pattern, yet `create_folder` skips the name lookup entirely
(the Python `if parent_id:` guard treats `""` as absent): the trace is only
the create POST, without a `parents` field. -/
theorem createFolder_empty_parent_counterexample :
    (some "" : Option String) ≠ none ∧
    pyIdMatch "" = false ∧
    (createFolder transportTrivial "Reports" (some "")).1 =
      [createFolderReq (folderMetadata "Reports" none)] :=
  ⟨by simp, by decide, rfl⟩

/-- C3 amended: for every non-empty `parent_id`, `create_folder` uses the
string directly as the `parents` entry, issuing only the create POST with no
lookup, exactly when the string matches the ID regex under CPython
`re.match` semantics (28-33 characters of `[a-zA-Z0-9_-]`, optionally
followed by one trailing newline accepted by `$`); every other non-empty
`parent_id` makes it invoke `find_folder_id_by_name` on the string first
(the trace begins with the lookup GET). The empty string bypasses both
paths. -/
theorem createFolder_parent_classification (t : Transport)
    (folder_name p : String) (hp : p ≠ "") :
    (pyIdMatch p = true →
      (createFolder t folder_name (some p)).1 =
        [createFolderReq (folderMetadata folder_name (some (.str p)))]) ∧
    (pyIdMatch p = false →
      ∃ rest, (createFolder t folder_name (some p)).1 =
        findFolderReq p :: rest) := by
  constructor
  · intro h
    simp [createFolder, hp, h, createFolderFinish_trace]
  · intro h
    cases htr : jTruthy (findFolderIdByName t p).2 with
    | true =>
      refine ⟨[createFolderReq (folderMetadata folder_name
        (some (findFolderIdByName t p).2))], ?_⟩
      simp [createFolder, hp, h, htr, createFolderFinish_trace,
        findFolderIdByName_trace]
    | false =>
      refine ⟨[], ?_⟩
      simp [createFolder, hp, h, htr, findFolderIdByName_trace]

/-- C3 witness: a 28-character ID-shaped parent is used directly, with the
create POST as the only request. -/
theorem createFolder_parent_classification_witness :
    (createFolder transportTrivial "Reports"
        (some "abcdefghijklmnopqrstuvwxyz01")).1 =
      [createFolderReq (folderMetadata "Reports"
        (some (.str "abcdefghijklmnopqrstuvwxyz01")))] :=
  (createFolder_parent_classification transportTrivial "Reports"
    "abcdefghijklmnopqrstuvwxyz01" (by decide)).1 (by decide)

/-- C4: for every transport, a non-empty, non-ID-shaped `parent_id` whose
lookup comes back falsy makes `create_folder` raise
`ValueError("Could not find parent folder with name: <parent_id>")`, with
the lookup GET as the only request ever issued — no folder-create POST. -/
theorem createFolder_missing_parent_error (t : Transport)
    (folder_name p : String) (hp : p ≠ "") (hm : pyIdMatch p = false)
    (habs : jTruthy (findFolderIdByName t p).2 = false) :
    createFolder t folder_name (some p) =
      ([findFolderReq p],
       .error (.valueError
         ("Could not find parent folder with name: " ++ p))) := by
  simp [createFolder, hp, hm, habs, findFolderIdByName_trace]

/-- C4 witness: against a transport that finds no folders, creating
`"Reports"` under the name `"Projects"` fails with the ValueError and issues
only the lookup GET. -/
theorem createFolder_missing_parent_error_witness :
    createFolder transportAbsent "Reports" (some "Projects") =
      ([findFolderReq "Projects"],
       .error (.valueError
         "Could not find parent folder with name: Projects")) :=
  createFolder_missing_parent_error transportAbsent "Reports" "Projects"
    (by decide) (by decide) (by decide)

/-- C5: `create_file_from_text("notes.txt", "hello world", parent_id=None)`
issues exactly two calls — first the files-create POST whose body is
`{"name": "notes.txt", "mimeType": "text/plain"}` with no `parents` field,
then the upload PATCH for the returned id carrying the raw bytes of
`"hello world"` and the header `Content-Type: text/plain; charset=utf-8` —
and returns the JSON decoded from the second response. -/
theorem createFileFromText_scenarioA (t : Transport)
    (hdrs : List (String × JValue)) (resp1 resp2 : HResp)
    (fields : List (String × JValue)) (fid : String) (j2 : JValue)
    (h1 : t (fileCreateReq
        (fileMetadata "notes.txt" (.str "text/plain") none)) = .ok resp1)
    (h2 : resp1.body = .ok (.obj fields))
    (h3 : lookupField fields "id" = some (.str fid))
    (h4 : t (uploadPatchReq (some (.str fid)) hdrs
        (.str "text/plain; charset=utf-8")
        (encodeUtf8 "hello world")) = .ok resp2)
    (h5 : resp2.statusOk = true)
    (h6 : resp2.body = .ok j2) :
    createFileFromText t hdrs "notes.txt" "hello world" none "text/plain" =
      ([fileCreateReq (.obj [("name", .str "notes.txt"),
          ("mimeType", .str "text/plain")]),
        uploadPatchReq (some (.str fid)) hdrs
          (.str "text/plain; charset=utf-8") (encodeUtf8 "hello world")],
       .ok j2) ∧
    encodeUtf8 "hello world" =
      [104, 101, 108, 108, 111, 32, 119, 111, 114, 108, 100] ∧
    lookupField (uploadPatchReq (some (.str fid)) hdrs
        (.str "text/plain; charset=utf-8")
        (encodeUtf8 "hello world")).headers "Content-Type" =
      some (.str "text/plain; charset=utf-8") ∧
    (uploadPatchReq (some (.str fid)) hdrs
        (.str "text/plain; charset=utf-8")
        (encodeUtf8 "hello world")).url =
      "https://www.googleapis.com/upload/drive/v3/files/" ++ fid ++
        "?uploadType=media" := by
  have h4' : t (uploadPatchReq (some (.str fid)) hdrs
      (.str ("text/plain" ++ "; charset=utf-8"))
      (encodeUtf8 "hello world")) = .ok resp2 := h4
  refine ⟨?_, rfl, ?_, rfl⟩
  · simp only [createFileFromText, h1, h2, jDictGet, h3]
    simp only [uploadFinish, h4', raiseForStatus, h5, if_true, h6]
    rfl
  · exact lookupField_dictSet hdrs "Content-Type"
      (.str "text/plain; charset=utf-8")

/-- C5 witness: the scenario run against a transport whose POST answers
`{"id": "file-abc"}` and whose PATCH answers the post-upload metadata. -/
theorem createFileFromText_scenarioA_witness :
    createFileFromText transportScenarioA [] "notes.txt" "hello world" none
        "text/plain" =
      ([fileCreateReq (.obj [("name", .str "notes.txt"),
          ("mimeType", .str "text/plain")]),
        uploadPatchReq (some (.str "file-abc")) []
          (.str "text/plain; charset=utf-8") (encodeUtf8 "hello world")],
       .ok (.obj [("id", .str "file-abc"), ("name", .str "notes.txt")])) :=
  (createFileFromText_scenarioA transportScenarioA []
    ⟨true, .ok (.obj [("id", .str "file-abc")])⟩
    ⟨true, .ok (.obj [("id", .str "file-abc"), ("name", .str "notes.txt")])⟩
    [("id", .str "file-abc")] "file-abc"
    (.obj [("id", .str "file-abc"), ("name", .str "notes.txt")])
    rfl rfl (by simp [lookupField]) rfl rfl rfl).1

/-- C1 counterexample: the claim says the metadata-create POST is never
issued when the local path cannot be read, but with an unreadable local file
`upload_a_file` still issues the POST: the trace is exactly the
metadata-create POST, after which the filesystem error surfaces. -/
theorem uploadAFile_missing_local_file_counterexample :
    uploadAFile transportTrivial []
        (.error (.fsError "No such file or directory: report.bin"))
        "report.bin" none (some "application/octet-stream") =
      ([fileCreateReq (fileMetadata "report.bin"
          (.str "application/octet-stream") none)],
       .error (.fsError "No such file or directory: report.bin")) := rfl

/-- C1 amended: the local file is opened only after the metadata-create
POST: whenever the POST succeeds (decoding to any dict) and the local read
raises, `upload_a_file` re-raises that filesystem error with the POST as the
only request issued — so a missing local file leaves the freshly created
metadata resource orphaned, and only the content PATCH is skipped. -/
theorem uploadAFile_read_failure_after_post (t : Transport)
    (hdrs : List (String × JValue)) (e : PyExc) (file_name : String)
    (parent_id mime_type : Option String) (resp : HResp)
    (fields : List (String × JValue))
    (h1 : t (fileCreateReq
        (fileMetadata file_name (mimeJValue mime_type) parent_id)) = .ok resp)
    (h2 : resp.body = .ok (.obj fields)) :
    uploadAFile t hdrs (.error e) file_name parent_id mime_type =
      ([fileCreateReq (fileMetadata file_name (mimeJValue mime_type)
          parent_id)],
       .error e) := by
  cases hl : lookupField fields "id" with
  | none => simp [uploadAFile, h1, h2, jDictGet, hl]
  | some x => simp [uploadAFile, h1, h2, jDictGet, hl]

/-- C1 amended witness: a permission-denied local read after a successful
POST. -/
theorem uploadAFile_read_failure_after_post_witness :
    uploadAFile transportTrivial [] (.error (.fsError "Permission denied"))
        "a.bin" none none =
      ([fileCreateReq (fileMetadata "a.bin" (mimeJValue none) none)],
       .error (.fsError "Permission denied")) :=
  uploadAFile_read_failure_after_post transportTrivial []
    (.fsError "Permission denied") "a.bin" none none
    ⟨true, .ok (.obj [])⟩ [] rfl rfl

/-- C10: when the metadata-create POST decodes to a dict with no `id`
field, neither `create_file_from_text` nor `upload_a_file` fails locally:
each still issues the second PATCH, with `None` rendered into the upload
URL. -/
theorem missing_id_still_patches_none_url (t : Transport)
    (hdrs : List (String × JValue)) (file_name text_content mime : String)
    (bytes : List Nat) (resp1 : HResp) (fields : List (String × JValue))
    (h1 : t (fileCreateReq
        (fileMetadata file_name (.str mime) none)) = .ok resp1)
    (h2 : resp1.body = .ok (.obj fields))
    (h3 : lookupField fields "id" = none) :
    (createFileFromText t hdrs file_name text_content none mime).1 =
      [fileCreateReq (fileMetadata file_name (.str mime) none),
       uploadPatchReq none hdrs (.str (mime ++ "; charset=utf-8"))
         (encodeUtf8 text_content)] ∧
    (uploadAFile t hdrs (.ok bytes) file_name none (some mime)).1 =
      [fileCreateReq (fileMetadata file_name (.str mime) none),
       uploadPatchReq none hdrs (.str mime) bytes] ∧
    uploadUrl none =
      "https://www.googleapis.com/upload/drive/v3/files/None?uploadType=media"
    := by
  refine ⟨?_, ?_, rfl⟩
  · simp only [createFileFromText, h1, h2, jDictGet, h3]
    exact uploadFinish_trace t _ _
  · simp only [uploadAFile, mimeJValue, h1, h2, jDictGet, h3]
    exact uploadFinish_trace t _ _

/-- C10 witness: a POST answering `{}` (no id at all) still leads to a PATCH
against `.../files/None?uploadType=media` in both operations. -/
theorem missing_id_still_patches_none_url_witness :
    (createFileFromText transportTrivial [] "n.txt" "hi" none
        "text/plain").1 =
      [fileCreateReq (fileMetadata "n.txt" (.str "text/plain") none),
       uploadPatchReq none [] (.str ("text/plain" ++ "; charset=utf-8"))
         (encodeUtf8 "hi")] :=
  (missing_id_still_patches_none_url transportTrivial [] "n.txt" "hi"
    "text/plain" [104, 105] ⟨true, .ok (.obj [])⟩ [] rfl rfl rfl).1

end GDrive
